import Mathlib

/-!
# Verification of the e-puck ROS2 driver (`epuck_ros2_cpp/src/controller.cpp`)

A shallow embedding of the driver's computational core, with theorems about
the distance model (`intensity_to_distance`), the kinematics converter
(`on_cmd_vel_received`), the scan assembler (`publish_distance_data`) and the
periodic exchange driver (`update_callback`).

Modelling conventions:
* C/C++ floating-point values (`float`, `double`) are modelled as exact
  rationals `ℚ`; every literal (`0.0068`, `2133.33`, ...) is the exact
  rational the source text denotes.
* C/C++ machine integers are modelled as `ℤ` (or `ℕ` for byte values); where
  the source performs integer division of non-negative literals (the blend
  weights `3 / 4`, `1 / 2`, ..., and `PERIOD_MS / 1000`), the embedding uses
  `ℕ` division, which truncates exactly as C++ `int` division does on
  non-negative operands.
* `v & 0xFF` on a two's-complement `int` is `v % 256` on `ℤ` (the
  non-negative remainder), and the arithmetic shift `v >> 8` is flooring
  division `v / 256` on `ℤ`.
* The `assert(status >= 0)` in `update_callback` aborts the process when the
  status is negative; the embedding returns `none` in that case.
-/

namespace EPuck

/-! ## Distance model — `intensity_to_distance`, controller.cpp lines 65-92 -/

/-- One linear interpolation step of `intensity_to_distance` (lines 83-88):
rows are `(distance, intensity)` pairs, `b` the higher-intensity row
(`table[i]`), `a` the next row (`table[i+1]`), `p` the input intensity. -/
def interp (b a : ℚ × ℚ) (p : ℚ) : ℚ :=
  ((b.1 - a.1) / (b.2 - a.2)) * (p - a.2) + a.1

/-- The bracket-searching loop of `intensity_to_distance` (lines 79-91): walk
adjacent row pairs in order; on the first pair with
`table[i][1] >= p_x && table[i+1][1] < p_x` return the interpolated distance,
otherwise fall through to the `return 100.0` on line 91. -/
def findBracket : List (ℚ × ℚ) → ℚ → ℚ
  | b :: a :: rest, p =>
      if b.2 ≥ p ∧ a.2 < p then interp b a p else findBracket (a :: rest) p
  | _, _ => 100

/-- The calibration table of `intensity_to_distance` (lines 67-78), rows are
`(distance, intensity)`. -/
def table : List (ℚ × ℚ) :=
  [(0, 4095),
   (5/1000, 213333/100),
   (1/100, 146573/100),
   (15/1000, 60146/100),
   (2/100, 38384/100),
   (3/100, 23493/100),
   (4/100, 15803/100),
   (5/100, 120),
   (6/100, 10409/100),
   (7/100, 6719/100),
   (1/10, 0)]

/-- Function `intensity_to_distance` (lines 65-92). -/
def intensity_to_distance (p_x : ℚ) : ℚ :=
  findBracket table p_x

/-! ## Kinematics converter — `on_cmd_vel_received`, controller.cpp lines 104-118 -/

/-- Constant `WHEEL_DISTANCE = 0.05685` (line 36). -/
def WHEEL_DISTANCE : ℚ := 5685 / 100000

/-- Constant `WHEEL_RADIUS = 0.02` (line 37). -/
def WHEEL_RADIUS : ℚ := 2 / 100

/-- The `CLIP(VAL, MIN, MAX) = max(min(MAX, VAL), MIN)` macro (lines 30-32). -/
def clipQ (v lo hi : ℚ) : ℚ := max (min hi v) lo

/-- Conversion of a `double` to `int` (the initializers on lines 109-110):
truncation toward zero. -/
def truncQ (q : ℚ) : ℤ := if 0 ≤ q then ⌊q⌋ else -⌊-q⌋

/-- The register computation of `on_cmd_vel_received` (lines 106-110): inverse
kinematics, division by the calibration step `0.0068`, `CLIP` to
`[-1108, 1108]`, and conversion to `int`. -/
def cmd_to_registers (linear_x angular_z : ℚ) : ℤ × ℤ :=
  let left_velocity := (2 * linear_x - angular_z * WHEEL_DISTANCE) / (2 * WHEEL_RADIUS)
  let right_velocity := (2 * linear_x + angular_z * WHEEL_DISTANCE) / (2 * WHEEL_RADIUS)
  (truncQ (clipQ (left_velocity / (68/10000)) (-1108) 1108),
   truncQ (clipQ (right_velocity / (68/10000)) (-1108) 1108))

/-- The byte packing of lines 114-117: `v & 0xFF` and `(v >> 8) & 0xFF` on a
two's-complement `int`, i.e. the non-negative remainder mod 256 of `v` and of
the floor-shifted `v >> 8`. -/
def encode16le (v : ℤ) : ℤ × ℤ := (v % 256, (v / 256) % 256)

/-- Modelled from the spec: the repository contains no decoder for the
ActuatorFrame's register bytes (that runs on the robot's MCU); per the spec's
round-trip property the two bytes are read back "as a little-endian signed
16-bit value". -/
def decode16le_signed (b0 b1 : ℤ) : ℤ :=
  if b0 + 256 * b1 < 32768 then b0 + 256 * b1 else b0 + 256 * b1 - 65536

/-! ## Driver state and scan messages -/

/-- The two fixed-size byte buffers owned by the node (lines 200-201):
`msg_actuators` (20 bytes) and `msg_sensors` (47 bytes). -/
structure DriverState where
  msg_actuators : List ℤ
  msg_sensors : List ℕ

/-- State effect of `on_cmd_vel_received` (lines 104-118): compute the
registers and store their little-endian encodings in actuator bytes 0-3. -/
def on_cmd_vel_received (linear_x angular_z : ℚ) (st : DriverState) : DriverState :=
  let r := cmd_to_registers linear_x angular_z
  let l := encode16le r.1
  let rr := encode16le r.2
  { st with msg_actuators :=
      ((((st.msg_actuators.set 0 l.1).set 1 l.2).set 2 rr.1).set 3 rr.2) }

/-- The fields of a `sensor_msgs::msg::LaserScan` that the driver fills in
(lines 134-165). -/
structure ScanMsg where
  frame_id : String
  stamp : ℕ
  angle_min : ℚ
  angle_max : ℚ
  angle_increment : ℚ
  scan_time : ℚ
  range_min : ℚ
  range_max : ℚ
  ranges : List ℚ

/-- Constant `distance_from_center = 0.035` (line 122). -/
def distance_from_center : ℚ := 35 / 1000

/-- The intensity decoding of lines 127-132:
`msg_sensors[i*2] + (msg_sensors[i*2+1] << 8)` over unsigned bytes. -/
def decode_intensity (sensors : List ℕ) (i : ℕ) : ℕ :=
  sensors.getD (i * 2) 0 + 256 * sensors.getD (i * 2 + 1) 0

/-- The converted distance `dist[i]` of lines 127-132. -/
def sensor_dist (sensors : List ℕ) (i : ℕ) : ℚ :=
  intensity_to_distance (decode_intensity sensors i) + distance_from_center

/-- The `msg.ranges` vector of lines 143-165. The blend weights are written
in the source as C++ `int` divisions — `(3 / 4)`, `(2 / 4)`, `(1 / 4)`,
`(2 / 3)`, `(1 / 3)`, `(1 / 2)` — which the embedding renders faithfully as
`ℕ` divisions of the same literals, cast to `ℚ`. -/
def build_scan (d : Fin 8 → ℚ) : List ℚ :=
  [d 4,                                                              -- -150
   ((3 / 4 : ℕ) : ℚ) * d 4 + ((1 / 4 : ℕ) : ℚ) * d 5,                -- -135
   ((2 / 4 : ℕ) : ℚ) * d 4 + ((2 / 4 : ℕ) : ℚ) * d 5,                -- -120
   ((1 / 4 : ℕ) : ℚ) * d 4 + ((3 / 4 : ℕ) : ℚ) * d 5,                -- -105
   d 5,                                                              -- -90
   ((2 / 3 : ℕ) : ℚ) * d 5 + ((1 / 3 : ℕ) : ℚ) * d 6,                -- -75
   ((1 / 3 : ℕ) : ℚ) * d 5 + ((2 / 3 : ℕ) : ℚ) * d 6,                -- -60
   d 6,                                                              -- -45
   ((1 / 2 : ℕ) : ℚ) * d 6 + ((1 / 2 : ℕ) : ℚ) * d 7,                -- -30
   d 7,                                                              -- -15
   ((1 / 2 : ℕ) : ℚ) * d 7 + ((1 / 2 : ℕ) : ℚ) * d 0,                -- 0
   d 0,                                                              -- 15
   ((1 / 2 : ℕ) : ℚ) * d 0 + ((1 / 2 : ℕ) : ℚ) * d 1,                -- 30
   d 1,                                                              -- 45
   ((2 / 3 : ℕ) : ℚ) * d 1 + ((1 / 3 : ℕ) : ℚ) * d 2,                -- 60
   ((1 / 3 : ℕ) : ℚ) * d 1 + ((2 / 3 : ℕ) : ℚ) * d 2,                -- 75
   d 2,                                                              -- 90
   ((3 / 4 : ℕ) : ℚ) * d 2 + ((1 / 4 : ℕ) : ℚ) * d 3,                -- 105
   ((2 / 4 : ℕ) : ℚ) * d 2 + ((2 / 4 : ℕ) : ℚ) * d 3,                -- 120
   ((1 / 4 : ℕ) : ℚ) * d 2 + ((3 / 4 : ℕ) : ℚ) * d 3,                -- 135
   d 3]                                                              -- 150

/-- One scan entry, read with a default that is never used for the in-bounds
indices the theorems address (the list has 21 entries). -/
def scanEntry (l : List ℚ) (i : ℕ) : ℚ := l.getD i 0

/-- Function `publish_distance_data` (lines 120-169): decode the eight sensor
intensities, convert them, and build the `LaserScan` message. `piQ` stands
for the value of `M_PI`; every claim about the angle fields is stated
relative to the same `piQ`. `msg.scan_time = PERIOD_MS / 1000` (line 140) is
a C++ `int` division, rendered as the `ℕ` division `64 / 1000`. -/
def publish_distance_data (piQ : ℚ) (stamp : ℕ) (sensors : List ℕ) : ScanMsg :=
  let d : Fin 8 → ℚ := fun i => sensor_dist sensors i.val
  { frame_id := "laser_scanner"
    stamp := stamp
    angle_min := -150 * piQ / 180
    angle_max := 150 * piQ / 180
    angle_increment := 15 * piQ / 180
    scan_time := ((64 / 1000 : ℕ) : ℚ)
    range_min := 5/1000 + distance_from_center
    range_max := 5/100 + distance_from_center
    ranges := build_scan d }

/-! ## Periodic exchange driver — `update_callback`, controller.cpp lines 171-191 -/

/-- The transport outcomes a tick can observe: the return value of
`set_address(0x1F)`, the return value of `read_data` (discarded by the
source), the 47 bytes `read_data` stores into `msg_sensors`, and the value
`now()` would return. -/
structure TickEnv where
  set_address_status : ℤ
  read_status : ℤ
  read_bytes : List ℕ
  now : ℕ

/-- Function `update_callback` (lines 171-191). `none` models the process abort of
`assert(status >= 0)`. On a non-negative status the tick overwrites
`msg_sensors` with the bytes read, sets the local `stamp` to `now()` exactly
when `status != MSG_SENSORS_SIZE` — `status` still holds `set_address`'s
return value, the `read_data` result having been discarded — and returns.
The third component is the list of scan messages published during the tick;
the source contains no call to `publish_distance_data`, so it is `[]`. -/
def update_callback (env : TickEnv) (st : DriverState) :
    Option (DriverState × Option ℕ × List ScanMsg) :=
  if env.set_address_status < 0 then none
  else
    some ({ st with msg_sensors := env.read_bytes },
          (if env.set_address_status ≠ 47 then some env.now else none),
          ([] : List ScanMsg))

/-! ## Helper notions for the table lemmas -/

/-- Head intensity of a table (the first row's intensity; 0 for the empty
table, which `findBracket` maps to the sentinel anyway). -/
def headInt : List (ℚ × ℚ) → ℚ
  | [] => 0
  | r :: _ => r.2

/-- Head distance of a table (100, the sentinel, for the empty table). -/
def headDist : List (ℚ × ℚ) → ℚ
  | [] => 100
  | r :: _ => r.1

/-- Intensities strictly decrease along adjacent rows. -/
def IntensityDec (L : List (ℚ × ℚ)) : Prop :=
  List.Chain' (fun b a => a.2 < b.2) L

/-- Distances weakly increase along adjacent rows. -/
def DistanceInc (L : List (ℚ × ℚ)) : Prop :=
  List.Chain' (fun b a => b.1 ≤ a.1) L

/-! ## Interpolation lemmas

`interp b a` on the bracket `(a.2, b.2]` is a line of nonpositive slope
whenever the row pair has `a.2 < b.2` (so the denominator is positive) and
`b.1 ≤ a.1`. -/

lemma interp_slope_nonpos {b a : ℚ × ℚ} (hx : a.2 < b.2) (hy : b.1 ≤ a.1) :
    (b.1 - a.1) / (b.2 - a.2) ≤ 0 :=
  div_nonpos_of_nonpos_of_nonneg (by linarith) (by linarith)

lemma interp_ge_left {b a : ℚ × ℚ} {p : ℚ} (hx : a.2 < b.2) (hy : b.1 ≤ a.1)
    (hp : p ≤ b.2) : b.1 ≤ interp b a p := by
  unfold interp
  have hd : (0 : ℚ) < b.2 - a.2 := by linarith
  have h1 : (b.1 - a.1) / (b.2 - a.2) * (b.2 - a.2)
      ≤ (b.1 - a.1) / (b.2 - a.2) * (p - a.2) :=
    mul_le_mul_of_nonpos_left (by linarith) (interp_slope_nonpos hx hy)
  rw [div_mul_cancel₀ _ hd.ne'] at h1
  linarith

lemma interp_le_right {b a : ℚ × ℚ} {p : ℚ} (hx : a.2 < b.2) (hy : b.1 ≤ a.1)
    (hp : a.2 < p) : interp b a p ≤ a.1 := by
  unfold interp
  have h1 : (b.1 - a.1) / (b.2 - a.2) * (p - a.2) ≤ 0 :=
    mul_nonpos_iff.mpr (Or.inr ⟨interp_slope_nonpos hx hy, by linarith⟩)
  linarith

lemma interp_anti {b a : ℚ × ℚ} {p q : ℚ} (hx : a.2 < b.2) (hy : b.1 ≤ a.1)
    (hqp : q ≤ p) : interp b a p ≤ interp b a q := by
  unfold interp
  have h1 : (b.1 - a.1) / (b.2 - a.2) * (p - a.2)
      ≤ (b.1 - a.1) / (b.2 - a.2) * (q - a.2) :=
    mul_le_mul_of_nonpos_left (by linarith) (interp_slope_nonpos hx hy)
  linarith

/-! ## `findBracket` lemmas -/

/-- When the input is above every row's intensity, no bracket matches. -/
lemma findBracket_of_high {p : ℚ} :
    ∀ L : List (ℚ × ℚ), (∀ r ∈ L, r.2 < p) → findBracket L p = 100 := by
  intro L
  induction L with
  | nil => intro _; rfl
  | cons b L ih =>
    intro h
    cases L with
    | nil => rfl
    | cons a rest =>
      have hb : b.2 < p := h b (by simp)
      rw [findBracket, if_neg (by intro hc; exact absurd hc.1 (not_le.mpr hb))]
      exact ih (fun r hr => h r (List.mem_cons_of_mem b hr))

/-- When the input is at or below every row's intensity, no bracket matches
(the strict lower test `table[i+1][1] < p_x` always fails). -/
lemma findBracket_of_low {p : ℚ} :
    ∀ L : List (ℚ × ℚ), (∀ r ∈ L, p ≤ r.2) → findBracket L p = 100 := by
  intro L
  induction L with
  | nil => intro _; rfl
  | cons b L ih =>
    intro h
    cases L with
    | nil => rfl
    | cons a rest =>
      have ha : p ≤ a.2 := h a (by simp)
      rw [findBracket, if_neg (by intro hc; exact absurd hc.2 (not_lt.mpr ha))]
      exact ih (fun r hr => h r (List.mem_cons_of_mem b hr))

/-- The result of `findBracket` never falls below the head row's distance. -/
lemma findBracket_ge_headDist :
    ∀ L : List (ℚ × ℚ), IntensityDec L → DistanceInc L →
      (∀ r ∈ L, r.1 ≤ 100) → ∀ p : ℚ, headDist L ≤ findBracket L p := by
  intro L
  induction L with
  | nil => intro _ _ _ p; simp [headDist, findBracket]
  | cons b L ih =>
    intro h1 h2 h3 p
    cases L with
    | nil =>
      simpa [headDist, findBracket] using h3 b (by simp)
    | cons a rest =>
      obtain ⟨hba, h1'⟩ := List.chain'_cons.mp h1
      obtain ⟨hdi, h2'⟩ := List.chain'_cons.mp h2
      rw [findBracket]
      by_cases hc : b.2 ≥ p ∧ a.2 < p
      · rw [if_pos hc]
        exact interp_ge_left hba hdi hc.1
      · rw [if_neg hc]
        have := ih h1' h2' (fun r hr => h3 r (List.mem_cons_of_mem b hr)) p
        calc headDist (b :: a :: rest) = b.1 := rfl
          _ ≤ a.1 := hdi
          _ = headDist (a :: rest) := rfl
          _ ≤ findBracket (a :: rest) p := this

/-- Monotonicity: on inputs at or below the head intensity, `findBracket` is
antitone. -/
lemma findBracket_anti :
    ∀ L : List (ℚ × ℚ), IntensityDec L → DistanceInc L →
      (∀ r ∈ L, r.1 ≤ 100) → ∀ p q : ℚ, q ≤ p → p ≤ headInt L →
      findBracket L p ≤ findBracket L q := by
  intro L
  induction L with
  | nil => intro _ _ _ p q _ _; simp [findBracket]
  | cons b L ih =>
    intro h1 h2 h3 p q hqp hp
    cases L with
    | nil => simp [findBracket]
    | cons a rest =>
      obtain ⟨hba, h1'⟩ := List.chain'_cons.mp h1
      obtain ⟨hdi, h2'⟩ := List.chain'_cons.mp h2
      have hp' : p ≤ b.2 := hp
      rw [findBracket, findBracket]
      by_cases hc1 : a.2 < p
      · rw [if_pos ⟨hp', hc1⟩]
        by_cases hc2 : a.2 < q
        · rw [if_pos ⟨le_trans hqp hp', hc2⟩]
          exact interp_anti hba hdi hqp
        · rw [if_neg (by intro hc; exact hc2 hc.2)]
          have hup : interp b a p ≤ a.1 := interp_le_right hba hdi hc1
          have hdown : a.1 ≤ findBracket (a :: rest) q := by
            have := findBracket_ge_headDist (a :: rest) h1' h2'
              (fun r hr => h3 r (List.mem_cons_of_mem b hr)) q
            simpa [headDist] using this
          linarith
      · have hpa : p ≤ a.2 := not_lt.mp hc1
        rw [if_neg (by intro hc; exact hc1 hc.2),
            if_neg (by intro hc; exact hc1 (lt_of_lt_of_le hc.2 hqp))]
        exact ih h1' h2' (fun r hr => h3 r (List.mem_cons_of_mem b hr)) p q hqp hpa

/-- Range: `findBracket` returns the sentinel or a value within the table's
distance span. -/
lemma findBracket_range :
    ∀ L : List (ℚ × ℚ), IntensityDec L → DistanceInc L →
      (∀ r ∈ L, 0 ≤ r.1 ∧ r.1 ≤ 1/10) → ∀ p : ℚ,
      findBracket L p = 100 ∨ (0 ≤ findBracket L p ∧ findBracket L p ≤ 1/10) := by
  intro L
  induction L with
  | nil => intro _ _ _ p; left; rfl
  | cons b L ih =>
    intro h1 h2 h3 p
    cases L with
    | nil => left; rfl
    | cons a rest =>
      obtain ⟨hba, h1'⟩ := List.chain'_cons.mp h1
      obtain ⟨hdi, h2'⟩ := List.chain'_cons.mp h2
      rw [findBracket]
      by_cases hc : b.2 ≥ p ∧ a.2 < p
      · rw [if_pos hc]
        right
        constructor
        · exact le_trans (h3 b (by simp)).1 (interp_ge_left hba hdi hc.1)
        · exact le_trans (interp_le_right hba hdi hc.2) (h3 a (by simp)).2
      · rw [if_neg hc]
        exact ih h1' h2' (fun r hr => h3 r (List.mem_cons_of_mem b hr)) p

/-! ## Concrete facts about the calibration table -/

lemma table_intensityDec : IntensityDec table := by
  norm_num [IntensityDec, table, List.chain'_cons]

lemma table_distanceInc : DistanceInc table := by
  norm_num [DistanceInc, table, List.chain'_cons]

lemma table_dist_range : ∀ r ∈ table, 0 ≤ r.1 ∧ r.1 ≤ 1/10 := by
  norm_num [table]

lemma table_dist_le_100 : ∀ r ∈ table, r.1 ≤ 100 := by
  norm_num [table]

lemma table_int_nonneg : ∀ r ∈ table, 0 ≤ r.2 := by
  norm_num [table]

lemma table_int_le_top : ∀ r ∈ table, r.2 ≤ 4095 := by
  norm_num [table]

lemma headInt_table : headInt table = 4095 := rfl

/-! ## Clip and truncation lemmas -/

lemma clipQ_bounds (v : ℚ) : -1108 ≤ clipQ v (-1108) 1108 ∧ clipQ v (-1108) 1108 ≤ 1108 := by
  unfold clipQ
  exact ⟨le_max_right _ _, max_le (min_le_left _ _) (by norm_num)⟩

lemma truncQ_bounds {q : ℚ} (h1 : -1108 ≤ q) (h2 : q ≤ 1108) :
    -1108 ≤ truncQ q ∧ truncQ q ≤ 1108 := by
  unfold truncQ
  split
  · constructor
    · have : (0 : ℤ) ≤ ⌊q⌋ := Int.floor_nonneg.mpr (by assumption)
      omega
    · have h : ⌊q⌋ ≤ ⌊(1108 : ℚ)⌋ := Int.floor_le_floor h2
      simpa using h
  · constructor
    · have h : ⌊-q⌋ ≤ ⌊(1108 : ℚ)⌋ := Int.floor_le_floor (by linarith)
      have h' : ⌊(1108 : ℚ)⌋ = 1108 := by norm_num
      omega
    · have : (0 : ℤ) ≤ ⌊-q⌋ := Int.floor_nonneg.mpr (by linarith)
      omega

/-! ## Claim C4 -/

/-- Claim C4, counterexample: `intensity_to_distance 0` is `100`, not `0`.
At input `0` the bracket test `table[i+1][1] < p_x` is strict, and the last
row's intensity is exactly `0`, so no pair brackets the input and the
function falls through to the sentinel. -/
theorem intensity_to_distance_zero_is_sentinel :
    intensity_to_distance 0 = 100 ∧ intensity_to_distance 0 ≠ 0 := by
  norm_num [intensity_to_distance, findBracket, table, interp]

/-- Claim C4 (amended): `intensity_to_distance 4095` — the first breakpoint,
maximum intensity — returns `0`; `intensity_to_distance 0` returns the
sentinel `100.0`; and every input strictly below the last breakpoint's
intensity (`0`) returns exactly the saturation sentinel `100.0`. -/
theorem intensity_to_distance_endpoints (x : ℚ) (hx : x < 0) :
    intensity_to_distance 4095 = 0 ∧ intensity_to_distance 0 = 100 ∧
      intensity_to_distance x = 100 := by
  refine ⟨?_, ?_, ?_⟩
  · norm_num [intensity_to_distance, findBracket, table, interp]
  · norm_num [intensity_to_distance, findBracket, table, interp]
  · apply findBracket_of_low
    intro r hr
    have := table_int_nonneg r hr
    linarith

/-- Claim C4, witness: the amended theorem at the concrete input `-1`. -/
theorem intensity_to_distance_endpoints_witness :
    intensity_to_distance 4095 = 0 ∧ intensity_to_distance 0 = 100 ∧
      intensity_to_distance (-1) = 100 :=
  intensity_to_distance_endpoints (-1) (by norm_num)

/-! ## Claim C8 -/

/-- Claim C8: on `[0, 4095]` the distance model is non-increasing in the
intensity — in fact everywhere on the interval, so in particular away from
the first two breakpoints, which is all the claim demands. -/
theorem intensity_to_distance_antitone (x1 x2 : ℚ) (_h0 : 0 ≤ x1) (h12 : x1 ≤ x2)
    (h2 : x2 ≤ 4095) : intensity_to_distance x2 ≤ intensity_to_distance x1 :=
  findBracket_anti table table_intensityDec table_distanceInc table_dist_le_100
    x2 x1 h12 (le_of_le_of_eq h2 headInt_table.symm)

/-- Claim C8, witness: the monotonicity theorem at the inputs `100 ≤ 200`. -/
theorem intensity_to_distance_antitone_witness :
    intensity_to_distance 200 ≤ intensity_to_distance 100 :=
  intensity_to_distance_antitone 100 200 (by norm_num) (by norm_num) (by norm_num)

/-! ## Claim C10 -/

/-- Claim C10: every output of `intensity_to_distance` is either exactly the
sentinel `100.0` or an interpolated value within the table's distance span
`[0, 0.1]`; and inputs strictly above the first breakpoint's intensity
`4095` fall outside every bracketing pair and return the sentinel. -/
theorem intensity_to_distance_output_range (x : ℚ) :
    (intensity_to_distance x = 100 ∨
      (0 ≤ intensity_to_distance x ∧ intensity_to_distance x ≤ 1/10)) ∧
    (4095 < x → intensity_to_distance x = 100) := by
  constructor
  · exact findBracket_range table table_intensityDec table_distanceInc
      table_dist_range x
  · intro hx
    apply findBracket_of_high
    intro r hr
    have := table_int_le_top r hr
    linarith

/-- Claim C10, witness: the range theorem at the concrete out-of-range input
`5000 > 4095`. -/
theorem intensity_to_distance_output_range_witness :
    ((intensity_to_distance 5000 = 100 ∨
      (0 ≤ intensity_to_distance 5000 ∧ intensity_to_distance 5000 ≤ 1/10)) ∧
      intensity_to_distance 5000 = 100) :=
  ⟨(intensity_to_distance_output_range 5000).1,
   (intensity_to_distance_output_range 5000).2 (by norm_num)⟩

/-! ## Claim C5 -/

/-- Claim C5: the wheel registers equal the claimed inverse-kinematics
formulas divided by the calibration step `0.0068` and clipped to
`[-1108, 1108]` (then converted to `int`); both registers always lie within
`[-1108, 1108]`; and the command `(0, 0)` yields registers `(0, 0)`. -/
theorem cmd_to_registers_spec (lx az : ℚ) :
    cmd_to_registers lx az =
      (truncQ (clipQ ((2 * lx - az * WHEEL_DISTANCE) / (2 * WHEEL_RADIUS) / (68/10000))
          (-1108) 1108),
       truncQ (clipQ ((2 * lx + az * WHEEL_DISTANCE) / (2 * WHEEL_RADIUS) / (68/10000))
          (-1108) 1108)) ∧
    (-1108 ≤ (cmd_to_registers lx az).1 ∧ (cmd_to_registers lx az).1 ≤ 1108) ∧
    (-1108 ≤ (cmd_to_registers lx az).2 ∧ (cmd_to_registers lx az).2 ≤ 1108) ∧
    cmd_to_registers 0 0 = (0, 0) := by
  refine ⟨rfl, ?_, ?_, ?_⟩
  · exact truncQ_bounds (clipQ_bounds _).1 (clipQ_bounds _).2
  · exact truncQ_bounds (clipQ_bounds _).1 (clipQ_bounds _).2
  · show (truncQ (clipQ ((2 * 0 - 0 * WHEEL_DISTANCE) / (2 * WHEEL_RADIUS) / (68/10000))
        (-1108) 1108), _) = (0, 0)
    norm_num [WHEEL_DISTANCE, WHEEL_RADIUS, clipQ, truncQ]

/-! ## Claim C9 -/

/-- Claim C9: for registers in `[-1108, 1108]`, packing into two little-endian
bytes (lines 114-117) and reading them back as a little-endian signed 16-bit
value is the identity; `300` packs to `(0x2C, 0x01) = (44, 1)` and `-1`
packs to `(0xFF, 0xFF) = (255, 255)`. -/
theorem encode16le_roundtrip (v : ℤ) (h1 : -1108 ≤ v) (h2 : v ≤ 1108) :
    decode16le_signed (encode16le v).1 (encode16le v).2 = v ∧
    encode16le 300 = (44, 1) ∧ encode16le (-1) = (255, 255) := by
  refine ⟨?_, by decide, by decide⟩
  unfold encode16le decode16le_signed
  dsimp only
  split <;> omega

/-- Claim C9, witness: the round-trip theorem at the register value `300`. -/
theorem encode16le_roundtrip_witness :
    decode16le_signed (encode16le 300).1 (encode16le 300).2 = 300 ∧
    encode16le 300 = (44, 1) ∧ encode16le (-1) = (255, 255) :=
  encode16le_roundtrip 300 (by decide) (by decide)

/-! ## Claim C2 -/

/-- Claim C2 (code bug): the blend weights are written as C++ `int`
divisions, so `3/4`, `2/4`, `1/4`, `2/3`, `1/3` and `1/2` all evaluate to
`0` and every intermediate (non-sensor-aligned) scan entry collapses to `0`
rather than the convex blend of its two neighbouring sensors. -/
theorem build_scan_weights_collapse (d : Fin 8 → ℚ) :
    build_scan d = [d 4, 0, 0, 0, d 5, 0, 0, d 6, 0, d 7, 0, d 0,
                    0, d 1, 0, 0, d 2, 0, 0, 0, d 3] := by
  norm_num [build_scan]

/-! ## Claim C3 -/

/-- Claim C3, counterexample: with all eight converted sensor distances equal
to `1`, the scan entry at index 10 is `0` — not the raw sensor distance the
claim asserts for that index. (Index 10, bearing 0°, is built from the blend
`(1/2)*dist[7] + (1/2)*dist[0]`, zeroed by the integer-division weights;
the commented-out `dist['tof']` shows it was never a raw proximity copy.) -/
theorem build_scan_index10_not_raw :
    scanEntry (build_scan (fun _ => (1 : ℚ))) 10 ≠ 1 ∧
    scanEntry (build_scan (fun _ => (1 : ℚ))) 10 = 0 := by
  norm_num [scanEntry, build_scan, List.getD]

/-- Claim C3 (amended): the scan has 21 entries, and the entries at indices
0, 4, 16 and 20 equal the corresponding raw converted sensor distances
(`dist[4]`, `dist[5]`, `dist[2]`, `dist[3]`) unmodified; index 10 is not a
raw copy but the (integer-division-zeroed) blend of sensors 7 and 0. -/
theorem build_scan_raw_copies (d : Fin 8 → ℚ) :
    (build_scan d).length = 21 ∧
    scanEntry (build_scan d) 0 = d 4 ∧
    scanEntry (build_scan d) 4 = d 5 ∧
    scanEntry (build_scan d) 16 = d 2 ∧
    scanEntry (build_scan d) 20 = d 3 := by
  refine ⟨rfl, ?_, ?_, ?_, ?_⟩ <;> simp [scanEntry, build_scan, List.getD]

/-! ## Claim C7 -/

/-- Claim C7 (code bug): the published metadata envelope carries the claimed
fixed angles (`±150°` and `15°` in radians, for the program's value `piQ` of
`M_PI`) and ranges (`0.005 + 0.035` and `0.05 + 0.035`), but
`msg.scan_time = PERIOD_MS / 1000` is a C++ `int` division, so the per-scan
duration is `0`, not the claimed `0.064` seconds. -/
theorem publish_distance_data_metadata (piQ : ℚ) (stamp : ℕ) (sensors : List ℕ) :
    (publish_distance_data piQ stamp sensors).angle_min = -150 * piQ / 180 ∧
    (publish_distance_data piQ stamp sensors).angle_max = 150 * piQ / 180 ∧
    (publish_distance_data piQ stamp sensors).angle_increment = 15 * piQ / 180 ∧
    (publish_distance_data piQ stamp sensors).range_min = 5/1000 + 35/1000 ∧
    (publish_distance_data piQ stamp sensors).range_max = 5/100 + 35/1000 ∧
    (publish_distance_data piQ stamp sensors).scan_time = 0 ∧
    (0 : ℚ) ≠ 64/1000 := by
  norm_num [publish_distance_data, distance_from_center]

/-! ## Claim C1 -/

/-- Claim C1 (code bug): on a tick whose transaction fully succeeds — address
selected (`status ≥ 0`), `read_data` reporting a full 47-byte frame — the
callback publishes no scan at all: `update_callback` contains no call to
`publish_distance_data`, and the `stamp` local (set only when the
`set_address` status differs from 47) is unused. -/
theorem update_callback_publishes_nothing (env : TickEnv) (st : DriverState)
    (h0 : 0 ≤ env.set_address_status) (_h1 : env.read_status = 47)
    (_h2 : env.read_bytes.length = 47) :
    (update_callback env st).map (fun r => r.2.2) = some ([] : List ScanMsg) := by
  unfold update_callback
  rw [if_neg (by omega)]
  rfl

/-- Claim C1, witness: a fully successful tick (status `0`, 47 zero bytes
read) publishes no scan message. -/
theorem update_callback_publishes_nothing_witness :
    (update_callback ⟨0, 47, List.replicate 47 0, 5⟩
        ⟨List.replicate 20 0, List.replicate 47 0⟩).map (fun r => r.2.2) =
      some ([] : List ScanMsg) :=
  update_callback_publishes_nothing ⟨0, 47, List.replicate 47 0, 5⟩
    ⟨List.replicate 20 0, List.replicate 47 0⟩ (by decide) rfl (by simp)

/-! ## Claim C6 -/

/-- Claim C6, counterexample: a failed address selection (status `-1`) on a
tick makes `assert(status >= 0)` abort the whole process (modelled `none`) —
the driver does not degrade to stale or zeroed scan output, contradicting
the claim that a transport failure never crashes the process. -/
theorem update_callback_crash_example :
    update_callback ⟨-1, 47, List.replicate 47 0, 0⟩
      ⟨List.replicate 20 0, List.replicate 47 0⟩ = none := rfl

/-- Claim C6 (amended): when selecting the target device address fails on a
tick (negative status), `assert(status >= 0)` aborts the process: the tick's
exchange stops with the SensorFrame not updated and no scan emitted, and —
rather than retrying on the next tick with degraded output — the process
crashes. -/
theorem update_callback_aborts_on_negative_status (env : TickEnv)
    (st : DriverState) (h : env.set_address_status < 0) :
    update_callback env st = none := by
  unfold update_callback
  rw [if_pos h]

/-- Claim C6, witness: the abort theorem at the concrete status `-5`. -/
theorem update_callback_aborts_witness :
    update_callback ⟨-5, 0, [], 0⟩ ⟨[], []⟩ = none :=
  update_callback_aborts_on_negative_status ⟨-5, 0, [], 0⟩ ⟨[], []⟩ (by decide)

end EPuck
